import Mathlib

/-!
Shallow embedding of the resilient multi-account collection engine of the
inventory-tag repository: the circuit breaker and its guarded-call wrapper
(`cidb2_producer/circuit_breaker.py`), the S3 advisory lock
(`cidb2_reporter/s3_locking.py`), and the multi-account orchestrator
(`cidb2_producer/cidb2_producer.py`), together with theorems about their
behaviour.  Wall-clock time is modelled as a natural number of seconds and
is passed explicitly to every operation that reads the clock.
-/

namespace Cidb2

/-- Errors raised by remote calls: either a botocore `ClientError` carrying
an optional `Error.Code` field in its response, or an exception of any
other type (identified by its type name). -/
inductive PyError where
  | clientError (code : Option String)
  | otherError (name : String)
deriving DecidableEq, Repr

/-- `CIRCUIT_BREAKER_ERRORS` from `circuit_breaker.py`: error codes that
should trigger the circuit breaker. -/
def CIRCUIT_BREAKER_ERRORS : List String :=
  ["ThrottlingException", "RequestThrottled", "TooManyRequestsException",
   "ServiceUnavailable", "InternalError", "ConnectionError",
   "EndpointConnectionError"]

/-- `extract_error_code`: the `Error.Code` field of a `ClientError`
(defaulting to `"Unknown"` when absent), `"Unknown"` for anything else. -/
def extract_error_code : PyError → String
  | .clientError (some c) => c
  | .clientError none => "Unknown"
  | .otherError _ => "Unknown"

/-- Transient classification: the extracted error code is one of the
rate-limiting / throttling / unavailable / connectivity codes. -/
def isTransientError (e : PyError) : Bool :=
  CIRCUIT_BREAKER_ERRORS.contains (extract_error_code e)

/-- The triggering test inside `record_failure`: `should_trigger` starts
`True` and is refined only when the error is a non-`None` `ClientError`,
in which case it holds exactly when the code is in
`CIRCUIT_BREAKER_ERRORS`. -/
def shouldTrigger : Option PyError → Bool
  | some (.clientError code) => isTransientError (.clientError code)
  | some (.otherError _) => true
  | none => true

/-- The three circuit states `CLOSED` / `OPEN` / `HALF-OPEN`. -/
inductive CBState where
  | closed
  | opened
  | halfOpen
deriving DecidableEq, Repr

/-- The mutable fields of a `CircuitBreaker` instance, together with its
configuration. -/
structure CircuitBreaker where
  failure_threshold : Nat
  recovery_timeout : Nat
  reset_timeout : Nat
  state : CBState
  failure_count : Nat
  last_failure_time : Nat
  last_success_time : Nat
deriving DecidableEq, Repr

/-- `CircuitBreaker.__init__`: start `CLOSED` with `failure_count = 0`,
`last_failure_time = 0` and `last_success_time = now`. -/
def mkCircuitBreaker (failure_threshold recovery_timeout reset_timeout now : Nat) :
    CircuitBreaker :=
  { failure_threshold := failure_threshold
    recovery_timeout := recovery_timeout
    reset_timeout := reset_timeout
    state := CBState.closed
    failure_count := 0
    last_failure_time := 0
    last_success_time := now }

/-- `allow_request`: first reset a stale failure count in `CLOSED`, then if
`OPEN` either flip to `HALF-OPEN` (when the recovery window elapsed) and
allow, or deny; `CLOSED` and `HALF-OPEN` always allow.  Returns the boolean
answer together with the updated breaker. -/
def allow_request (cb : CircuitBreaker) (now : Nat) : Bool × CircuitBreaker :=
  let cb1 :=
    if cb.state = CBState.closed ∧ 0 < cb.failure_count ∧
        cb.reset_timeout < now - cb.last_failure_time then
      { cb with failure_count := 0 }
    else cb
  if cb1.state = CBState.opened then
    if cb1.recovery_timeout < now - cb1.last_failure_time then
      (true, { cb1 with state := CBState.halfOpen })
    else
      (false, cb1)
  else
    (true, cb1)

/-- `record_success`: stamp `last_success_time`; a success in `HALF-OPEN`
closes the circuit and zeroes the failure count. -/
def record_success (cb : CircuitBreaker) (now : Nat) : CircuitBreaker :=
  let cb1 := { cb with last_success_time := now }
  if cb1.state = CBState.halfOpen then
    { cb1 with state := CBState.closed, failure_count := 0 }
  else
    cb1

/-- `record_failure`: stamp `last_failure_time`; when the error triggers
the breaker, bump `failure_count`, open the circuit from `CLOSED` once the
threshold is reached, and reopen it from `HALF-OPEN`. -/
def record_failure (cb : CircuitBreaker) (error : Option PyError) (now : Nat) :
    CircuitBreaker :=
  let cb1 := { cb with last_failure_time := now }
  if shouldTrigger error then
    let cb2 := { cb1 with failure_count := cb1.failure_count + 1 }
    if cb2.state = CBState.closed ∧ cb2.failure_threshold ≤ cb2.failure_count then
      { cb2 with state := CBState.opened }
    else if cb2.state = CBState.halfOpen then
      { cb2 with state := CBState.opened }
    else
      cb2
  else
    cb1

/-- `get_state`: the current state of the breaker. -/
def get_state (cb : CircuitBreaker) : CBState := cb.state

/-- `reset`: force the breaker back to `CLOSED` and clear its counters. -/
def resetBreaker (cb : CircuitBreaker) (now : Nat) : CircuitBreaker :=
  { cb with
    state := CBState.closed
    failure_count := 0
    last_failure_time := 0
    last_success_time := now }

/-- One externally invokable breaker operation, with the clock value at
which it runs. -/
inductive CBOp where
  | allow (t : Nat)
  | success (t : Nat)
  | failure (e : Option PyError) (t : Nat)
  | resetOp (t : Nat)
deriving DecidableEq, Repr

/-- Effect of one operation on the breaker state (the boolean answer of
`allow_request` is discarded here). -/
def stepCB (cb : CircuitBreaker) : CBOp → CircuitBreaker
  | .allow t => (allow_request cb t).2
  | .success t => record_success cb t
  | .failure e t => record_failure cb e t
  | .resetOp t => resetBreaker cb t

/-- Run a sequence of breaker operations from left to right. -/
def runOps (cb : CircuitBreaker) (ops : List CBOp) : CircuitBreaker :=
  ops.foldl stepCB cb

/-- A run of consecutive `record_failure` calls with the same error, at the
given sequence of clock values. -/
def foldFailures (cb : CircuitBreaker) (e : PyError) (ts : List Nat) :
    CircuitBreaker :=
  ts.foldl (fun c t => record_failure c (some e) t) cb

/-- Outcome of one guarded call as seen by the caller: a returned value
(from the operation or the fallback), the operation's own raised error
propagated unchanged, or a raised `CircuitBreakerOpenError`. -/
inductive GuardOutcome (α : Type) where
  | value (a : α)
  | raised (e : PyError)
  | circuitOpenError
deriving DecidableEq, Repr

/-- `CircuitBreakerDecorator.__call__`'s wrapper, for one invocation at
clock value `now`: the underlying operation is modelled by its outcome
`op` (a normal result or a raised error) and the optional fallback by the
value it would return. -/
def guardedCall {α : Type} (cb : CircuitBreaker) (now : Nat)
    (fallback : Option α) (op : Except PyError α) :
    GuardOutcome α × CircuitBreaker :=
  let allowed := allow_request cb now
  if allowed.1 then
    match op with
    | Except.ok a => (GuardOutcome.value a, record_success allowed.2 now)
    | Except.error e =>
        (GuardOutcome.raised e, record_failure allowed.2 (some e) now)
  else
    match fallback with
    | some v => (GuardOutcome.value v, allowed.2)
    | none => (GuardOutcome.circuitOpenError, allowed.2)

/-- The JSON body stored at `<object_key>.lock` (the fields `release_lock`
and `check_stale_lock` actually read). -/
structure LockRecord where
  lock_id : Nat
  expires : Nat
deriving DecidableEq, Repr

/-- The remote store restricted to the one lock key: `none` means the lock
object is absent (`get` raises `NoSuchKey`). -/
def LockStore : Type := Option LockRecord

/-- `acquire_lock`: build a record expiring at `now + timeout` and `put`
it unconditionally.  Whether the S3 `put` physically succeeds is an input
(`putOk`); on failure nothing is written and `(False, None)` is returned.
`lockId` stands for the freshly generated uuid. -/
def acquire_lock (store : LockStore) (putOk : Bool) (lockId now timeout : Nat) :
    (Bool × Option Nat) × LockStore :=
  if putOk then
    ((true, some lockId), some { lock_id := lockId, expires := now + timeout })
  else
    ((false, none), store)

/-- `release_lock`: read the lock object; delete it only when its stored
`lock_id` equals the caller's; refuse (returning `False` and leaving the
store unchanged) when it differs or the object is absent. -/
def release_lock (store : LockStore) (lockId : Nat) : Bool × LockStore :=
  match store with
  | none => (false, none)
  | some rec =>
      if rec.lock_id = lockId then (true, none) else (false, some rec)

/-- `check_stale_lock`: absent lock → not stale, no record; present and
expired (`now > expires`) → stale; present and unexpired → not stale. -/
def check_stale_lock (store : LockStore) (now : Nat) : Bool × Option LockRecord :=
  match store with
  | none => (false, none)
  | some rec => if rec.expires < now then (true, some rec) else (false, some rec)

/-- `break_stale_lock`: delete the lock object exactly when
`check_stale_lock` reports it stale; otherwise leave the store alone. -/
def break_stale_lock (store : LockStore) (now : Nat) : Bool × LockStore :=
  let checked := check_stale_lock store now
  match checked with
  | (true, some _) => (true, none)
  | _ => (false, store)

/-- Outcome of the writer function: a normal result or a raised error. -/
inductive WriterOutcome (α : Type) where
  | value (a : α)
  | raises (e : String)
deriving DecidableEq, Repr

/-- Result of `write_with_lock` as seen by its caller: the writer's
result, the writer's error propagating, or the structured
lock-acquisition-failure dictionary. -/
inductive WWLResult (α : Type) where
  | value (a : α)
  | raised (e : String)
  | lockFailure
deriving DecidableEq, Repr

/-- Observable side effects of `write_with_lock`, in order. -/
inductive LockEvent where
  | brokeStale (broken : Bool)
  | acquireOk (lockId : Nat)
  | acquireFail
  | ranWriter (lockId : Nat)
  | releaseCalled (lockId : Nat) (succeeded : Bool)
deriving DecidableEq, Repr

/-- One acquisition attempt of `write_with_lock`: whether the S3 `put`
succeeds, and the uuid that would be generated. -/
structure Attempt where
  putOk : Bool
  lockId : Nat
deriving DecidableEq, Repr

/-- The retry loop of `write_with_lock`.  `first` is true exactly on the
first attempt (`attempt == 0`), where no `break_stale_lock` runs and no
backoff sleep happens.  Returns the caller-visible result, the final lock
store, and the trace of lock events. -/
def writeWithLockLoop {α : Type} (writer : Nat → WriterOutcome α)
    (now timeout : Nat) :
    List Attempt → Bool → LockStore → WWLResult α × LockStore × List LockEvent
  | [], _, store => (WWLResult.lockFailure, store, [])
  | a :: rest, first, store =>
      let afterBreak :=
        if first then (([] : List LockEvent), store)
        else
          let broke := break_stale_lock store now
          ([LockEvent.brokeStale broke.1], broke.2)
      let acq := acquire_lock afterBreak.2 a.putOk a.lockId now timeout
      if acq.1.1 then
        let evts := afterBreak.1 ++ [LockEvent.acquireOk a.lockId,
                                     LockEvent.ranWriter a.lockId]
        match writer a.lockId with
        | WriterOutcome.value v =>
            let rel := release_lock acq.2 a.lockId
            (WWLResult.value v, rel.2,
             evts ++ [LockEvent.releaseCalled a.lockId rel.1])
        | WriterOutcome.raises e =>
            let rel := release_lock acq.2 a.lockId
            (WWLResult.raised e, rel.2,
             evts ++ [LockEvent.releaseCalled a.lockId rel.1])
      else
        let tail := writeWithLockLoop writer now timeout rest false acq.2
        (tail.1, tail.2.1,
         afterBreak.1 ++ [LockEvent.acquireFail] ++ tail.2.2)

/-- `write_with_lock`: run the retry loop over `max_attempts` attempts
(the list `attempts` has one entry per loop iteration, so
`attempts.length` embodies `max_attempts`), starting on the first
attempt with the given store. -/
def write_with_lock {α : Type} (writer : Nat → WriterOutcome α)
    (attempts : List Attempt) (now timeout : Nat) (store : LockStore) :
    WWLResult α × LockStore × List LockEvent :=
  writeWithLockLoop writer now timeout attempts true store

/-- Recognize the `break_stale_lock` invocations in a trace. -/
def isBrokeStale : LockEvent → Bool
  | LockEvent.brokeStale _ => true
  | _ => false

/-- Behaviour of `iam_client.list_policy_tags` for one policy: a normal
tag list, a raised `ClientError` with the given code, or a raised
exception of another type. -/
inductive TagOutcome where
  | value (tags : List (String × String))
  | raiseClient (code : Option String)
  | raiseOther (name : String)
deriving DecidableEq, Repr

/-- One policy item returned by the listing, together with the behaviour
of its tag fetch. -/
structure PolicySpec where
  arn : String
  tagsOutcome : TagOutcome
deriving DecidableEq, Repr

/-- Behaviour of the underlying `assume_role` call for one account: it
yields a session, returns `None`, or raises. -/
inductive AssumeOutcome where
  | assumed
  | returnsNone
  | raises (e : PyError)
deriving DecidableEq, Repr

/-- Behaviour of `iam_client.list_policies` for one account: the policy
page it returns, or the error it raises. -/
inductive ListOutcome where
  | page (policies : List PolicySpec)
  | raises (e : PyError)
deriving DecidableEq, Repr

/-- One account task: its id and the behaviour of the remote calls made
on its behalf (`role_name` and `region` do not influence control flow and
are omitted). -/
structure AccountSpec where
  account_id : String
  assume : AssumeOutcome
  listOutcome : ListOutcome
deriving DecidableEq, Repr

/-- The per-policy record built by `process_policy`. -/
structure PolicyProps where
  accountId : String
  arn : String
  tags : List (String × String)
deriving DecidableEq, Repr

/-- Status of one account's result. -/
inductive AccountStatus where
  | success
  | failed
  | circuitOpen
deriving DecidableEq, Repr

/-- The per-account statistics dictionary (the float
`tagging_percentage` is omitted). -/
structure Stats where
  total : Nat
  tagged : Nat
  untagged : Nat
deriving DecidableEq, Repr

/-- The zero-valued `statistics` dictionary used by failure branches. -/
def zeroStats : Stats :=
  { total := 0, tagged := 0, untagged := 0 }

/-- One entry of the orchestrator's `results['accounts']` map. -/
structure AccountResult where
  account_id : String
  status : AccountStatus
  policies : List PolicyProps
  stats : Stats
deriving DecidableEq, Repr

/-- The three circuit breakers created by
`list_policy_properties_multi_account`, threaded through the run. -/
structure Breakers where
  assumeCb : CircuitBreaker
  listCb : CircuitBreaker
  tagCb : CircuitBreaker
deriving DecidableEq, Repr

/-- `get_policy_tags_with_cb`, a function guarded by the tag decorator
with fallback `{}`: a raised `ClientError` is caught inside (recording a
failure and returning `{}`, after which the decorator records a success);
any other raised error propagates through the decorator, which records
the failure. -/
def get_policy_tags_with_cb (tagCb : CircuitBreaker) (now : Nat)
    (outcome : TagOutcome) :
    Except PyError (List (String × String)) × CircuitBreaker :=
  let allowed := allow_request tagCb now
  if allowed.1 then
    match outcome with
    | TagOutcome.value tags => (Except.ok tags, record_success allowed.2 now)
    | TagOutcome.raiseClient code =>
        let cbF := record_failure allowed.2 (some (PyError.clientError code)) now
        (Except.ok [], record_success cbF now)
    | TagOutcome.raiseOther name =>
        let e := PyError.otherError name
        (Except.error e, record_failure allowed.2 (some e) now)
  else
    (Except.ok [], allowed.2)

/-- `process_policy`: fetch the tags through the guarded call, build the
policy-properties record and record a success on the tag breaker; a
propagating error aborts only this item. -/
def process_policy (tagCb : CircuitBreaker) (now : Nat) (accountId : String)
    (p : PolicySpec) : Except PyError PolicyProps × CircuitBreaker :=
  let fetched := get_policy_tags_with_cb tagCb now p.tagsOutcome
  match fetched.1 with
  | Except.error e => (Except.error e, fetched.2)
  | Except.ok tags =>
      (Except.ok { accountId := accountId, arn := p.arn, tags := tags },
       record_success fetched.2 now)

/-- The resource-level pool of `process_account`: process every policy,
keeping the successful records and dropping the items whose processing
raised, while threading the tag breaker. -/
def processPolicies (now : Nat) (accountId : String) :
    List PolicySpec → CircuitBreaker → List PolicyProps × CircuitBreaker
  | [], cb => ([], cb)
  | p :: rest, cb =>
      let r := process_policy cb now accountId p
      let tail := processPolicies now accountId rest r.2
      match r.1 with
      | Except.ok props => (props :: tail.1, tail.2)
      | Except.error _ => (tail.1, tail.2)

/-- `process_account`: gate on the assume-role breaker, run the decorated
role assumption (whose inner function catches its own exceptions and
returns `None`, so the decorator always records a success when allowed),
gate on the list breaker, run the decorated listing (fallback
`Policies: []`; a raised listing error is caught by the outer handler and
yields a failed result), then process all policies and aggregate the
statistics. -/
def process_account (bks : Breakers) (now : Nat) (acc : AccountSpec) :
    AccountResult × Breakers :=
  let gate := allow_request bks.assumeCb now
  if gate.1 then
    let allowed := allow_request gate.2 now
    let assumeRes : Option Unit × CircuitBreaker :=
      if allowed.1 then
        match acc.assume with
        | AssumeOutcome.assumed => (some (), record_success allowed.2 now)
        | AssumeOutcome.returnsNone => (none, record_success allowed.2 now)
        | AssumeOutcome.raises e =>
            (none, record_success (record_failure allowed.2 (some e) now) now)
      else
        (none, allowed.2)
    match assumeRes.1 with
    | none =>
        ({ account_id := acc.account_id, status := AccountStatus.failed,
           policies := [], stats := zeroStats },
         { bks with assumeCb := assumeRes.2 })
    | some _ =>
        let lgate := allow_request bks.listCb now
        if lgate.1 then
          let lallowed := allow_request lgate.2 now
          let listRes : Except PyError (List PolicySpec) × CircuitBreaker :=
            if lallowed.1 then
              match acc.listOutcome with
              | ListOutcome.page ps => (Except.ok ps, record_success lallowed.2 now)
              | ListOutcome.raises e =>
                  (Except.error e, record_failure lallowed.2 (some e) now)
            else
              (Except.ok [], lallowed.2)
          match listRes.1 with
          | Except.error _ =>
              ({ account_id := acc.account_id, status := AccountStatus.failed,
                 policies := [], stats := zeroStats },
               { assumeCb := assumeRes.2, listCb := listRes.2, tagCb := bks.tagCb })
          | Except.ok policyList =>
              let lcb := record_success listRes.2 now
              let processed := processPolicies now acc.account_id policyList bks.tagCb
              let total := processed.1.length
              let tagged := (processed.1.filter (fun p => !p.tags.isEmpty)).length
              let acb := record_success assumeRes.2 now
              ({ account_id := acc.account_id, status := AccountStatus.success,
                 policies := processed.1,
                 stats := { total := total, tagged := tagged,
                            untagged := total - tagged } },
               { assumeCb := acb, listCb := lcb, tagCb := processed.2 })
        else
          ({ account_id := acc.account_id, status := AccountStatus.circuitOpen,
             policies := [], stats := zeroStats },
           { bks with assumeCb := assumeRes.2, listCb := lgate.2 })
  else
    ({ account_id := acc.account_id, status := AccountStatus.circuitOpen,
       policies := [], stats := zeroStats },
     { bks with assumeCb := gate.2 })

/-- `results['accounts'][account_id] = account_result`: Python dict
assignment — overwrite the entry if the key is present, append it
otherwise. -/
def upsert (m : List (String × AccountResult)) (k : String) (v : AccountResult) :
    List (String × AccountResult) :=
  if m.any (fun kv => kv.1 = k) then
    m.map (fun kv => if kv.1 = k then (k, v) else kv)
  else
    m ++ [(k, v)]

/-- The account-level pool: run every account task, inserting its result
into the aggregate map keyed by `account_id` and extending
`all_policies` on success, while threading the breakers.  The source
inserts results in the nondeterministic `as_completed` completion order
of a concurrent pool; this model runs the tasks in input order, so only
completion-order-independent facts about the map — its key set, its
entry count, per-key contents and status counts — are asserted of the
program, never the order of its entries. -/
def runAccounts (now : Nat) :
    List AccountSpec → Breakers → List (String × AccountResult) →
    List PolicyProps →
    List (String × AccountResult) × List PolicyProps × Breakers
  | [], bks, m, ap => (m, ap, bks)
  | acc :: rest, bks, m, ap =>
      let r := process_account bks now acc
      let ap' := if r.1.status = AccountStatus.success then ap ++ r.1.policies
                 else ap
      runAccounts now rest r.2 (upsert m acc.account_id r.1) ap'

/-- The `summary` block of the orchestrator's result. -/
structure Summary where
  total_accounts : Nat
  successful_accounts : Nat
  failed_accounts : Nat
  circuit_open_accounts : Nat
  total_policies : Nat
  tagged_policies : Nat
  untagged_policies : Nat
deriving DecidableEq, Repr

/-- The orchestrator's result: the per-account map, the combined policy
list, and the summary. -/
structure MultiResult where
  accounts : List (String × AccountResult)
  all_policies : List PolicyProps
  summary : Summary
deriving DecidableEq, Repr

/-- The keys of the result map after one Python dict assignment: unchanged
when the key is already present, appended otherwise. -/
def addKey (ks : List String) (k : String) : List String :=
  if k ∈ ks then ks else ks ++ [k]

/-- The three circuit breakers created at the start of
`list_policy_properties_multi_account`: `assume-role` (threshold 3,
recovery 60), `iam-list-policies` (3, 30), `iam-policy-tags` (5, 15), all
with the default reset timeout 60. -/
def initialBreakers (now : Nat) : Breakers :=
  { assumeCb := mkCircuitBreaker 3 60 60 now
    listCb := mkCircuitBreaker 3 30 60 now
    tagCb := mkCircuitBreaker 5 15 60 now }

/-- `IAMClient.list_policy_properties_multi_account`: create the three
breakers (thresholds 3/3/5, recovery timeouts 60/30/15, default reset
timeout 60), process every account task, and aggregate the summary
counts over the result map and the combined policy list. -/
def list_policy_properties_multi_account (accountList : List AccountSpec)
    (now : Nat) : MultiResult :=
  let run := runAccounts now accountList (initialBreakers now) [] []
  let accounts := run.1
  let ap := run.2.1
  { accounts := accounts
    all_policies := ap
    summary :=
      { total_accounts := accountList.length
        successful_accounts :=
          (accounts.filter (fun kv => kv.2.status == AccountStatus.success)).length
        failed_accounts :=
          (accounts.filter (fun kv => kv.2.status == AccountStatus.failed)).length
        circuit_open_accounts :=
          (accounts.filter (fun kv => kv.2.status == AccountStatus.circuitOpen)).length
        total_policies := ap.length
        tagged_policies := (ap.filter (fun p => !p.tags.isEmpty)).length
        untagged_policies :=
          ap.length - (ap.filter (fun p => !p.tags.isEmpty)).length } }

/-! Concrete inputs used to exercise the definitions. -/

/-- A transient `ClientError` (`ThrottlingException`). -/
def throttleErr : PyError := PyError.clientError (some "ThrottlingException")

/-- A permanent `ClientError` (`AccessDenied`). -/
def deniedErr : PyError := PyError.clientError (some "AccessDenied")

/-- A raised exception that is not a `ClientError`. -/
def valueErr : PyError := PyError.otherError "ValueError"

/-- A breaker with `failure_threshold = 3`, `recovery_timeout = 30`. -/
def cbT3 : CircuitBreaker := mkCircuitBreaker 3 30 60 0

/-- `cbT3` after three consecutive transient failures: an `OPEN` breaker
with `last_failure_time = 3`. -/
def cbOpenEx : CircuitBreaker := foldFailures cbT3 throttleErr [1, 2, 3]

/-- A threshold-1 breaker driven to `HALF-OPEN` through a reachable
operation sequence: one transient failure at time 5 (opening it), then an
`allow_request` at time 36, past the recovery window. -/
def cbHalfOpenEx : CircuitBreaker :=
  runOps (mkCircuitBreaker 1 30 60 0)
    [CBOp.failure (some throttleErr) 5, CBOp.allow 36]

/-- A threshold-1 breaker opened by one transient failure at time 5. -/
def cbOpen1 : CircuitBreaker :=
  record_failure (mkCircuitBreaker 1 30 60 0) (some throttleErr) 5

/-- Account "A": role assumption succeeds, listing returns no policies. -/
def accountA : AccountSpec :=
  { account_id := "111111111111", assume := AssumeOutcome.assumed,
    listOutcome := ListOutcome.page [] }

/-- Account "B": role assumption raises a Permanent `AccessDenied`
`ClientError`. -/
def accountB : AccountSpec :=
  { account_id := "222222222222", assume := AssumeOutcome.raises deniedErr,
    listOutcome := ListOutcome.page [] }

/-- Account "C": role assumption succeeds, listing returns no policies. -/
def accountC : AccountSpec :=
  { account_id := "333333333333", assume := AssumeOutcome.assumed,
    listOutcome := ListOutcome.page [] }

/-- Five policy items where item 3's tag fetch raises a non-`ClientError`
(`ValueError`); the others return tag lists. -/
def fiveItems : List PolicySpec :=
  [{ arn := "p1", tagsOutcome := TagOutcome.value [("team", "a")] },
   { arn := "p2", tagsOutcome := TagOutcome.value [] },
   { arn := "p3", tagsOutcome := TagOutcome.raiseOther "ValueError" },
   { arn := "p4", tagsOutcome := TagOutcome.value [("team", "b")] },
   { arn := "p5", tagsOutcome := TagOutcome.value [] }]

/-- An account whose listing returns `fiveItems`. -/
def accFive : AccountSpec :=
  { account_id := "555555555555", assume := AssumeOutcome.assumed,
    listOutcome := ListOutcome.page fiveItems }

/-- Five policy items where item 3's tag fetch raises a transient
`ClientError` (`ThrottlingException`) instead. -/
def fiveItemsClient : List PolicySpec :=
  [{ arn := "p1", tagsOutcome := TagOutcome.value [("team", "a")] },
   { arn := "p2", tagsOutcome := TagOutcome.value [] },
   { arn := "p3", tagsOutcome := TagOutcome.raiseClient
      (some "ThrottlingException") },
   { arn := "p4", tagsOutcome := TagOutcome.value [("team", "b")] },
   { arn := "p5", tagsOutcome := TagOutcome.value [] }]

/-- An account whose listing returns `fiveItemsClient`. -/
def accFiveClient : AccountSpec :=
  { account_id := "666666666666", assume := AssumeOutcome.assumed,
    listOutcome := ListOutcome.page fiveItemsClient }

end Cidb2

namespace Cidb2

/-! Helper lemmas about single breaker operations. -/

theorem shouldTrigger_of_transient (e : PyError) (h : isTransientError e = true) :
    shouldTrigger (some e) = true := by
  cases e with
  | clientError code => simpa [shouldTrigger] using h
  | otherError n => rfl

theorem record_failure_skip (cb : CircuitBreaker) (error : Option PyError)
    (t : Nat) (h : shouldTrigger error = false) :
    record_failure cb error t = { cb with last_failure_time := t } := by
  unfold record_failure
  simp [h]

theorem record_failure_count (cb : CircuitBreaker) (error : Option PyError)
    (t : Nat) (h : shouldTrigger error = true) :
    (record_failure cb error t).failure_count = cb.failure_count + 1 := by
  unfold record_failure
  simp only [h, if_true]
  split
  · rfl
  · split
    · rfl
    · rfl

theorem record_failure_closed_small (cb : CircuitBreaker) (e : PyError) (t : Nat)
    (hs : cb.state = CBState.closed) (htr : shouldTrigger (some e) = true)
    (hlt : cb.failure_count + 1 < cb.failure_threshold) :
    record_failure cb (some e) t =
      { cb with last_failure_time := t, failure_count := cb.failure_count + 1 } := by
  unfold record_failure
  simp only [htr, if_true]
  rw [if_neg, if_neg]
  · intro hh
    have h2 : cb.state = CBState.halfOpen := hh
    rw [hs] at h2
    exact absurd h2 (by simp)
  · intro hand
    have h2 : cb.failure_threshold ≤ cb.failure_count + 1 := hand.2
    exact absurd h2 (by omega)

theorem record_failure_closed_big (cb : CircuitBreaker) (e : PyError) (t : Nat)
    (hs : cb.state = CBState.closed) (htr : shouldTrigger (some e) = true)
    (hge : cb.failure_threshold ≤ cb.failure_count + 1) :
    record_failure cb (some e) t =
      { cb with
        last_failure_time := t
        failure_count := cb.failure_count + 1
        state := CBState.opened } := by
  unfold record_failure
  simp only [htr, if_true]
  rw [if_pos]
  exact ⟨hs, hge⟩

theorem record_failure_opened (cb : CircuitBreaker) (error : Option PyError)
    (t : Nat) (hs : cb.state = CBState.opened) :
    (record_failure cb error t).state = CBState.opened := by
  simp only [record_failure]
  split
  · rw [if_neg, if_neg]
    · exact hs
    · intro hh
      have h2 : cb.state = CBState.halfOpen := hh
      rw [hs] at h2
      exact absurd h2 (by simp)
    · intro hand
      have h2 : cb.state = CBState.closed := hand.1
      rw [hs] at h2
      exact absurd h2 (by simp)
  · exact hs

theorem allow_request_opened (cb : CircuitBreaker) (t : Nat)
    (hs : cb.state = CBState.opened) :
    allow_request cb t =
      if cb.recovery_timeout < t - cb.last_failure_time then
        (true, { cb with state := CBState.halfOpen })
      else
        (false, cb) := by
  have hres : ¬(cb.state = CBState.closed ∧ 0 < cb.failure_count ∧
      cb.reset_timeout < t - cb.last_failure_time) := by
    intro h
    have h2 := h.1
    rw [hs] at h2
    exact absurd h2 (by simp)
  simp only [allow_request]
  rw [if_neg hres, if_pos hs]

theorem allow_request_not_opened_no_reset (cb : CircuitBreaker) (t : Nat)
    (hs : ¬(cb.state = CBState.opened))
    (hstale : ¬(cb.reset_timeout < t - cb.last_failure_time)) :
    allow_request cb t = (true, cb) := by
  have hres : ¬(cb.state = CBState.closed ∧ 0 < cb.failure_count ∧
      cb.reset_timeout < t - cb.last_failure_time) := fun h => hstale h.2.2
  simp only [allow_request]
  rw [if_neg hres, if_neg hs]

/-! Helper lemmas about runs of consecutive triggering failures. -/

theorem foldFailures_stay_closed (e : PyError) :
    ∀ (ts : List Nat) (cb : CircuitBreaker),
      cb.state = CBState.closed → shouldTrigger (some e) = true →
      cb.failure_count + ts.length < cb.failure_threshold →
      (foldFailures cb e ts).state = CBState.closed ∧
      (foldFailures cb e ts).failure_count = cb.failure_count + ts.length ∧
      (foldFailures cb e ts).failure_threshold = cb.failure_threshold
  | [], cb, hs, _, _ => ⟨hs, rfl, rfl⟩
  | t :: rest, cb, hs, htr, hlt => by
      simp only [List.length_cons] at hlt
      have hstep := record_failure_closed_small cb e t hs htr (by omega)
      have hrec : foldFailures cb e (t :: rest) =
          foldFailures (record_failure cb (some e) t) e rest := rfl
      have hs2 : (record_failure cb (some e) t).state = CBState.closed := by
        rw [hstep]; exact hs
      have hc2 : (record_failure cb (some e) t).failure_count =
          cb.failure_count + 1 := by rw [hstep]
      have hth2 : (record_failure cb (some e) t).failure_threshold =
          cb.failure_threshold := by rw [hstep]
      have ih := foldFailures_stay_closed e rest (record_failure cb (some e) t)
        hs2 htr (by rw [hc2, hth2]; omega)
      refine ⟨?_, ?_, ?_⟩
      · rw [hrec]; exact ih.1
      · rw [hrec, ih.2.1, hc2]
        simp only [List.length_cons]
        omega
      · rw [hrec, ih.2.2, hth2]

theorem foldFailures_opened (e : PyError) :
    ∀ (ts : List Nat) (cb : CircuitBreaker), cb.state = CBState.opened →
      (foldFailures cb e ts).state = CBState.opened
  | [], _, hs => hs
  | t :: rest, cb, hs =>
      foldFailures_opened e rest (record_failure cb (some e) t)
        (record_failure_opened cb (some e) t hs)

theorem foldFailures_opens (e : PyError) :
    ∀ (ts : List Nat) (cb : CircuitBreaker),
      cb.state = CBState.closed → shouldTrigger (some e) = true →
      cb.failure_threshold ≤ cb.failure_count + ts.length → 0 < ts.length →
      (foldFailures cb e ts).state = CBState.opened
  | [], _, _, _, _, hpos => absurd hpos (by simp)
  | t :: rest, cb, hs, htr, hge, _ => by
      simp only [List.length_cons] at hge
      have hrec : foldFailures cb e (t :: rest) =
          foldFailures (record_failure cb (some e) t) e rest := rfl
      rw [hrec]
      by_cases hbig : cb.failure_threshold ≤ cb.failure_count + 1
      · have hstep := record_failure_closed_big cb e t hs htr hbig
        have hs2 : (record_failure cb (some e) t).state = CBState.opened := by
          rw [hstep]
        exact foldFailures_opened e rest _ hs2
      · have hstep := record_failure_closed_small cb e t hs htr (by omega)
        have hs2 : (record_failure cb (some e) t).state = CBState.closed := by
          rw [hstep]; exact hs
        have hc2 : (record_failure cb (some e) t).failure_count =
            cb.failure_count + 1 := by rw [hstep]
        have hth2 : (record_failure cb (some e) t).failure_threshold =
            cb.failure_threshold := by rw [hstep]
        refine foldFailures_opens e rest _ hs2 htr ?_ ?_
        · rw [hc2, hth2]; omega
        · simp only [List.length_pos]
          intro hnil
          rw [hnil] at hge
          simp at hge
          omega

/-! Claims about the circuit breaker. -/

/-- Claim C1 counterexample: `cbT3` after two consecutive transient
failures is a breaker in `CLOSED` state with `failure_threshold = 3`, yet
a single further transient failure — fewer than the threshold — already
flips `get_state` to `OPEN`, contradicting the claim that with fewer than
`failure_threshold` such failures the state remains `CLOSED`. -/
theorem C1_counterexample :
    (foldFailures cbT3 throttleErr [1, 2]).state = CBState.closed ∧
    1 < (foldFailures cbT3 throttleErr [1, 2]).failure_threshold ∧
    get_state (record_failure (foldFailures cbT3 throttleErr [1, 2])
      (some throttleErr) 3) = CBState.opened := by
  decide

/-- Claim C1 (amended): for every breaker in `CLOSED` state whose
`failure_count` is 0 and whose `failure_threshold` is positive, after
exactly `failure_threshold` consecutive transient `record_failure` calls
(no intervening success or reset) `get_state` returns `OPEN`, and with
fewer than `failure_threshold` such failures the state remains `CLOSED`
(the failure count tracking the number of failures). -/
theorem C1_closed_to_open (cb : CircuitBreaker) (e : PyError) (ts : List Nat)
    (hs : cb.state = CBState.closed) (hc : cb.failure_count = 0)
    (hpos : 0 < cb.failure_threshold) (he : isTransientError e = true) :
    (ts.length = cb.failure_threshold →
      get_state (foldFailures cb e ts) = CBState.opened) ∧
    (ts.length < cb.failure_threshold →
      get_state (foldFailures cb e ts) = CBState.closed ∧
      (foldFailures cb e ts).failure_count = ts.length) := by
  have htr := shouldTrigger_of_transient e he
  constructor
  · intro hlen
    exact foldFailures_opens e ts cb hs htr (by omega) (by omega)
  · intro hlen
    have h := foldFailures_stay_closed e ts cb hs htr (by omega)
    exact ⟨h.1, by rw [h.2.1, hc]; omega⟩

/-- Witness for C1: `cbT3` (threshold 3) opens after exactly three
transient failures and is still closed after two. -/
theorem C1_closed_to_open_witness :
    get_state (foldFailures cbT3 throttleErr [1, 2, 3]) = CBState.opened ∧
    get_state (foldFailures cbT3 throttleErr [1, 2]) = CBState.closed := by
  refine ⟨(C1_closed_to_open cbT3 throttleErr [1, 2, 3] (by decide) (by decide)
      (by decide) (by decide)).1 (by decide),
    ((C1_closed_to_open cbT3 throttleErr [1, 2] (by decide) (by decide)
      (by decide) (by decide)).2 (by decide)).1⟩

/-- Claim C2 counterexample: a raised `ValueError` is not a `ClientError`,
so it is of Unknown kind (its extracted code is `"Unknown"`, which is not
in the transient-trigger set), yet `record_failure` increments
`failure_count`, and from a closed breaker with two prior transient
failures it even flips the state to `OPEN` — contradicting the claim that
errors not classified Transient never increment the count nor change the
state. -/
theorem C2_counterexample :
    isTransientError valueErr = false ∧
    (record_failure cbT3 (some valueErr) 1).failure_count =
      cbT3.failure_count + 1 ∧
    get_state (record_failure (foldFailures cbT3 throttleErr [1, 2])
      (some valueErr) 3) = CBState.opened := by
  decide

/-- Claim C2 (amended): `record_failure` leaves the breaker untouched
except for `last_failure_time` exactly when the error is a `ClientError`
whose code is outside the transient set (in particular for Permanent
`ClientError`s); it increments `failure_count` for every other error —
transient `ClientError`s, but also `None` and every non-`ClientError`
exception. -/
theorem C2_trigger_condition (cb : CircuitBreaker) (error : Option PyError)
    (t : Nat) :
    (shouldTrigger error = false →
      record_failure cb error t = { cb with last_failure_time := t }) ∧
    (shouldTrigger error = true →
      (record_failure cb error t).failure_count = cb.failure_count + 1) ∧
    (shouldTrigger error = false ↔
      ∃ code, error = some (PyError.clientError code) ∧
        isTransientError (PyError.clientError code) = false) := by
  refine ⟨fun h => record_failure_skip cb error t h,
    fun h => record_failure_count cb error t h, ?_⟩
  cases error with
  | none => simp [shouldTrigger]
  | some e =>
    cases e with
    | clientError code =>
        constructor
        · intro h
          exact ⟨code, rfl, h⟩
        · rintro ⟨c, hc, hf⟩
          simp only [Option.some.injEq, PyError.clientError.injEq] at hc
          rw [hc]
          exact hf
    | otherError n => simp [shouldTrigger]

/-- Witness for C2: a Permanent `AccessDenied` leaves `cbT3` untouched
but for the failure timestamp, while a non-`ClientError` increments the
count. -/
theorem C2_trigger_condition_witness :
    record_failure cbT3 (some deniedErr) 1 =
      { cbT3 with last_failure_time := 1 } ∧
    (record_failure cbT3 (some valueErr) 1).failure_count =
      cbT3.failure_count + 1 := by
  exact ⟨(C2_trigger_condition cbT3 (some deniedErr) 1).1 (by decide),
    (C2_trigger_condition cbT3 (some valueErr) 1).2.1 (by decide)⟩

/-- Claim C3 counterexample: `cbOpenEx` is `OPEN` with
`last_failure_time = 3` and `recovery_timeout = 30`; at time 33 exactly
`recovery_timeout` seconds have elapsed, yet `allow_request` still returns
`false` and the breaker stays `OPEN` — contradicting the claim that at
exactly `recovery_timeout` elapsed it returns `true`. -/
theorem C3_counterexample :
    cbOpenEx.state = CBState.opened ∧
    cbOpenEx.recovery_timeout ≤ 33 - cbOpenEx.last_failure_time ∧
    (allow_request cbOpenEx 33).1 = false ∧
    (allow_request cbOpenEx 33).2.state = CBState.opened := by
  decide

/-- Claim C3 (amended): for every `OPEN` breaker, `allow_request` returns
`false` (leaving the breaker unchanged) whenever the elapsed time since
`last_failure_time` is at most `recovery_timeout`, and returns `true`
while transitioning the state to `HALF-OPEN` in that same call as soon as
the elapsed time strictly exceeds `recovery_timeout`. -/
theorem C3_open_recovery (cb : CircuitBreaker) (t : Nat)
    (hs : cb.state = CBState.opened) :
    (t - cb.last_failure_time ≤ cb.recovery_timeout →
      allow_request cb t = (false, cb)) ∧
    (cb.recovery_timeout < t - cb.last_failure_time →
      (allow_request cb t).1 = true ∧
      (allow_request cb t).2 = { cb with state := CBState.halfOpen }) := by
  rw [allow_request_opened cb t hs]
  constructor
  · intro hle
    rw [if_neg (by omega)]
  · intro hlt
    rw [if_pos hlt]
    exact ⟨rfl, rfl⟩

/-- Witness for C3: `cbOpenEx` (failure at 3, recovery 30) denies at time
33 and allows at time 34, flipping to `HALF-OPEN`. -/
theorem C3_open_recovery_witness :
    allow_request cbOpenEx 33 = (false, cbOpenEx) ∧
    (allow_request cbOpenEx 34).1 = true ∧
    (allow_request cbOpenEx 34).2 =
      { cbOpenEx with state := CBState.halfOpen } := by
  refine ⟨(C3_open_recovery cbOpenEx 33 (by decide)).1 (by decide), ?_, ?_⟩
  · exact ((C3_open_recovery cbOpenEx 34 (by decide)).2 (by decide)).1
  · exact ((C3_open_recovery cbOpenEx 34 (by decide)).2 (by decide)).2

/-- Claim C9 counterexample: a reachable operation sequence (one transient
failure on a threshold-1 breaker, then an `allow_request` past the
recovery window) leaves the breaker in `HALF-OPEN` with a nonzero
`failure_count`, contradicting the invariant that `failure_count` is
nonzero only while the state is `CLOSED` or `OPEN`. -/
theorem C9_counterexample :
    cbHalfOpenEx.state = CBState.halfOpen ∧
    cbHalfOpenEx.failure_count ≠ 0 := by
  decide

/-- Claim C9 (amended): whenever any breaker operation takes the state
from `OPEN` to `HALF-OPEN` (which only `allow_request` can do),
`failure_count` at entry to `HALF-OPEN` equals — is frozen at — its value
in the prior `OPEN` state; it is not reset to zero. -/
theorem C9_half_open_freeze (cb : CircuitBreaker) (op : CBOp)
    (hs : cb.state = CBState.opened)
    (hh : (stepCB cb op).state = CBState.halfOpen) :
    (stepCB cb op).failure_count = cb.failure_count := by
  cases op with
  | allow t =>
      have hform := allow_request_opened cb t hs
      simp only [stepCB, hform]
      split <;> rfl
  | success t =>
      exfalso
      have h2 : record_success cb t = { cb with last_success_time := t } := by
        unfold record_success
        rw [if_neg]
        intro hcon
        have h3 : cb.state = CBState.halfOpen := hcon
        rw [hs] at h3
        exact absurd h3 (by simp)
      have hh2 : (record_success cb t).state = CBState.halfOpen := hh
      rw [h2] at hh2
      have h4 : cb.state = CBState.halfOpen := hh2
      rw [hs] at h4
      exact absurd h4 (by simp)
  | failure e t =>
      exfalso
      have h2 := record_failure_opened cb e t hs
      have hh2 : (record_failure cb e t).state = CBState.halfOpen := hh
      rw [h2] at hh2
      exact absurd hh2 (by simp)
  | resetOp t =>
      exfalso
      have h2 : CBState.closed = CBState.halfOpen := hh
      exact absurd h2 (by simp)

/-- Witness for C9: the threshold-1 breaker opened at time 5 enters
`HALF-OPEN` at time 36 with its failure count frozen. -/
theorem C9_half_open_freeze_witness :
    (stepCB cbOpen1 (CBOp.allow 36)).failure_count = cbOpen1.failure_count := by
  exact C9_half_open_freeze cbOpen1 (CBOp.allow 36) (by decide) (by decide)

/-- Claim C10: a `ClientError` whose code is not in the transient-trigger
set leaves state and `failure_count` unchanged but still sets
`last_failure_time` to the current time; consequently, while `OPEN`, an
`allow_request` within `recovery_timeout` of that failure is still denied
(the recovery window is postponed), and while `CLOSED` with a positive
count, an `allow_request` within `reset_timeout` of it does not reset the
count. -/
theorem C10_nontrigger_frame (cb : CircuitBreaker) (code : Option String)
    (t : Nat) (hnt : isTransientError (PyError.clientError code) = false) :
    (record_failure cb (some (PyError.clientError code)) t).state = cb.state ∧
    (record_failure cb (some (PyError.clientError code)) t).failure_count =
      cb.failure_count ∧
    (record_failure cb (some (PyError.clientError code)) t).last_failure_time
      = t ∧
    (cb.state = CBState.opened → ∀ t2, t2 - t ≤ cb.recovery_timeout →
      (allow_request (record_failure cb (some (PyError.clientError code)) t)
        t2).1 = false) ∧
    (cb.state = CBState.closed → ∀ t2, t2 - t ≤ cb.reset_timeout →
      (allow_request (record_failure cb (some (PyError.clientError code)) t)
        t2).2.failure_count = cb.failure_count) := by
  have hskip := record_failure_skip cb (some (PyError.clientError code)) t hnt
  simp only [hskip]
  refine ⟨by trivial, by trivial, by trivial, ?_, ?_⟩
  · intro hs t2 hle
    have hs2 : ({ cb with last_failure_time := t } :
        CircuitBreaker).state = CBState.opened := hs
    rw [allow_request_opened _ t2 hs2]
    have hcond : ¬(({ cb with last_failure_time := t } :
        CircuitBreaker).recovery_timeout <
        t2 - ({ cb with last_failure_time := t} :
          CircuitBreaker).last_failure_time) := by
      show ¬(cb.recovery_timeout < t2 - t)
      omega
    rw [if_neg hcond]
  · intro hs t2 hle
    have hs2 : ¬(({ cb with last_failure_time := t } :
        CircuitBreaker).state = CBState.opened) := by
      intro h2
      have h3 : cb.state = CBState.opened := h2
      rw [hs] at h3
      exact absurd h3 (by simp)
    have hstale : ¬(({ cb with last_failure_time := t } :
        CircuitBreaker).reset_timeout <
        t2 - ({ cb with last_failure_time := t } :
          CircuitBreaker).last_failure_time) := by
      show ¬(cb.reset_timeout < t2 - t)
      omega
    rw [allow_request_not_opened_no_reset _ t2 hs2 hstale]

/-- Claim C4: for every guarded call, when `allow_request` is denied the
underlying operation is never invoked (the outcome does not depend on it)
and the fallback's value is returned when present, else a
circuit-open error is raised; when allowed, the operation runs, a success
is recorded on normal return with the result returned unchanged, and on a
raised error a failure is recorded with that error and the original error
propagates unchanged. -/
theorem C4_guarded_call {α : Type} (cb : CircuitBreaker) (t : Nat)
    (fallback : Option α) (op : Except PyError α) :
    ((allow_request cb t).1 = false →
      (∀ op2 : Except PyError α,
        guardedCall cb t fallback op2 = guardedCall cb t fallback op) ∧
      (∀ v, fallback = some v →
        guardedCall cb t fallback op =
          (GuardOutcome.value v, (allow_request cb t).2)) ∧
      (fallback = none →
        guardedCall cb t fallback op =
          (GuardOutcome.circuitOpenError, (allow_request cb t).2))) ∧
    ((allow_request cb t).1 = true →
      (∀ a, op = Except.ok a →
        guardedCall cb t fallback op =
          (GuardOutcome.value a, record_success (allow_request cb t).2 t)) ∧
      (∀ e, op = Except.error e →
        guardedCall cb t fallback op =
          (GuardOutcome.raised e,
            record_failure (allow_request cb t).2 (some e) t))) := by
  constructor
  · intro hdeny
    refine ⟨?_, ?_, ?_⟩
    · intro op2
      simp only [guardedCall, hdeny, Bool.false_eq_true, if_false]
    · intro v hv
      rw [hv]
      simp only [guardedCall, hdeny, Bool.false_eq_true, if_false]
    · intro hn
      rw [hn]
      simp only [guardedCall, hdeny, Bool.false_eq_true, if_false]
  · intro hallow
    simp only [guardedCall, hallow, if_true]
    exact ⟨fun a ha => by rw [ha], fun e he => by rw [he]⟩

/-- Witness for C4: a denied call on the open breaker `cbOpenEx` returns
the fallback, and an allowed call on the fresh breaker `cbT3` propagates
the operation's raised error after recording the failure. -/
theorem C4_guarded_call_witness :
    guardedCall cbOpenEx 10 (some 7) (Except.ok 1) =
      (GuardOutcome.value 7, (allow_request cbOpenEx 10).2) ∧
    guardedCall cbT3 0 (none : Option Nat) (Except.error valueErr) =
      (GuardOutcome.raised valueErr,
        record_failure (allow_request cbT3 0).2 (some valueErr) 0) := by
  refine ⟨((C4_guarded_call cbOpenEx 10 (some 7)
    (Except.ok 1)).1 (by decide)).2.1 7 rfl, ?_⟩
  exact ((C4_guarded_call cbT3 0 none
    (Except.error valueErr)).2 (by decide)).2 valueErr rfl

theorem writeWithLockLoop_all_fail {α : Type} (writer : Nat → WriterOutcome α)
    (now timeout : Nat) :
    ∀ (attempts : List Attempt) (first : Bool) (store : LockStore),
      (∀ a ∈ attempts, a.putOk = false) →
      (writeWithLockLoop writer now timeout attempts first store).1 =
        WWLResult.lockFailure ∧
      ((writeWithLockLoop writer now timeout attempts first store).2.2.filter
          isBrokeStale).length =
        attempts.length - (if first then 1 else 0)
  | [], first, store, _ => by
      constructor
      · rfl
      · cases first <;> rfl
  | a :: rest, first, store, hall => by
      have ha : a.putOk = false := hall a (by simp)
      have ih := fun st => writeWithLockLoop_all_fail writer now timeout rest
        false st (fun b hb => hall b (by simp [hb]))
      cases first with
      | true =>
          simp only [writeWithLockLoop, if_true, ha, acquire_lock,
            Bool.false_eq_true, if_false]
          refine ⟨(ih store).1, ?_⟩
          have h2 := (ih store).2
          simp only [Bool.false_eq_true, if_false, Nat.sub_zero] at h2
          simp only [List.append_eq, List.nil_append, List.filter,
            isBrokeStale, List.length_cons, h2]
          omega
      | false =>
          simp only [writeWithLockLoop, Bool.false_eq_true, if_false, ha,
            acquire_lock]
          refine ⟨(ih _).1, ?_⟩
          have h2 := (ih (break_stale_lock store now).2).2
          simp only [Bool.false_eq_true, if_false, Nat.sub_zero] at h2
          simp only [List.append_eq, List.nil_append, List.cons_append,
            List.filter, isBrokeStale, List.length_cons, h2]
          omega

theorem writeWithLockLoop_first_success {α : Type}
    (writer : Nat → WriterOutcome α) (now timeout : Nat) (a : Attempt)
    (post : List Attempt) (ha : a.putOk = true) :
    ∀ (pre : List Attempt) (first : Bool) (store : LockStore),
      (∀ b ∈ pre, b.putOk = false) →
      (writeWithLockLoop writer now timeout (pre ++ a :: post) first store).1 =
        (match writer a.lockId with
         | WriterOutcome.value v => WWLResult.value v
         | WriterOutcome.raises e => WWLResult.raised e) ∧
      ∃ evts,
        (writeWithLockLoop writer now timeout (pre ++ a :: post) first
          store).2.2 =
        evts ++ [LockEvent.acquireOk a.lockId, LockEvent.ranWriter a.lockId,
          LockEvent.releaseCalled a.lockId true]
  | [], first, store, _ => by
      have hrel : release_lock
          (some { lock_id := a.lockId, expires := now + timeout }) a.lockId =
          (true, none) := by
        simp [release_lock]
      cases first with
      | true =>
          cases hw : writer a.lockId with
          | value v =>
              constructor
              · simp [writeWithLockLoop, acquire_lock, ha, hw]
              · refine ⟨[], ?_⟩
                simp [writeWithLockLoop, acquire_lock, ha, hw, hrel]
          | raises e =>
              constructor
              · simp [writeWithLockLoop, acquire_lock, ha, hw]
              · refine ⟨[], ?_⟩
                simp [writeWithLockLoop, acquire_lock, ha, hw, hrel]
      | false =>
          cases hw : writer a.lockId with
          | value v =>
              constructor
              · simp [writeWithLockLoop, acquire_lock, ha, hw]
              · refine ⟨[LockEvent.brokeStale
                  (break_stale_lock store now).1], ?_⟩
                simp [writeWithLockLoop, acquire_lock, ha, hw, hrel]
          | raises e =>
              constructor
              · simp [writeWithLockLoop, acquire_lock, ha, hw]
              · refine ⟨[LockEvent.brokeStale
                  (break_stale_lock store now).1], ?_⟩
                simp [writeWithLockLoop, acquire_lock, ha, hw, hrel]
  | b :: pre, first, store, hall => by
      have hb : b.putOk = false := hall b (by simp)
      have ih := fun st => writeWithLockLoop_first_success writer now timeout
        a post ha pre false st (fun c hc => hall c (by simp [hc]))
      cases first with
      | true =>
          simp only [List.cons_append, writeWithLockLoop, if_true, hb,
            acquire_lock, Bool.false_eq_true, if_false]
          refine ⟨(ih store).1, ?_⟩
          obtain ⟨evts, hevts⟩ := (ih store).2
          refine ⟨LockEvent.acquireFail :: evts, ?_⟩
          simp only [List.append_eq, List.nil_append, List.cons_append,
            List.append_assoc, hevts]
      | false =>
          simp only [List.cons_append, writeWithLockLoop, Bool.false_eq_true,
            if_false, hb, acquire_lock]
          refine ⟨(ih _).1, ?_⟩
          obtain ⟨evts, hevts⟩ :=
            (ih (break_stale_lock store now).2).2
          refine ⟨LockEvent.brokeStale (break_stale_lock store now).1 ::
            LockEvent.acquireFail :: evts, ?_⟩
          simp only [List.append_eq, List.nil_append, List.cons_append,
            List.append_assoc, hevts]

/-- Claim C5: for every writer and at least one attempt, whenever an
acquire attempt (the first successful one) succeeds, the writer runs with
that attempt's lock id and the release is invoked right afterwards both
when the writer returns (its value is returned) and when it raises (the
error propagates); if every acquire attempt fails, the call returns the
structured lock-acquisition-failure result instead of raising, having
invoked `break_stale_lock` before every attempt after the first. -/
theorem C5_write_with_lock {α : Type} (writer : Nat → WriterOutcome α)
    (attempts : List Attempt) (now timeout : Nat) (store : LockStore)
    (_hpos : 1 ≤ attempts.length) :
    ((∀ a ∈ attempts, a.putOk = false) →
      (write_with_lock writer attempts now timeout store).1 =
        WWLResult.lockFailure ∧
      ((write_with_lock writer attempts now timeout store).2.2.filter
          isBrokeStale).length = attempts.length - 1) ∧
    (∀ pre a post, attempts = pre ++ a :: post → a.putOk = true →
      (∀ b ∈ pre, b.putOk = false) →
      (write_with_lock writer attempts now timeout store).1 =
        (match writer a.lockId with
         | WriterOutcome.value v => WWLResult.value v
         | WriterOutcome.raises e => WWLResult.raised e) ∧
      ∃ evts, (write_with_lock writer attempts now timeout store).2.2 =
        evts ++ [LockEvent.acquireOk a.lockId, LockEvent.ranWriter a.lockId,
          LockEvent.releaseCalled a.lockId true]) := by
  constructor
  · intro hall
    have h := writeWithLockLoop_all_fail writer now timeout attempts true
      store hall
    have h2 := h.2
    simp only [eq_self_iff_true, if_true] at h2
    exact ⟨h.1, h2⟩
  · intro pre a post hsplit hok hpre
    rw [hsplit]
    exact writeWithLockLoop_first_success writer now timeout a post hok pre
      true store hpre

/-- Witness for C5: with a failing first attempt and a succeeding second,
the writer's raised error propagates after the release; with a single
failing attempt the structured lock-failure result is returned. -/
theorem C5_write_with_lock_witness :
    (write_with_lock (fun _ => (WriterOutcome.raises "boom" : WriterOutcome Nat))
      [{ putOk := false, lockId := 7 }, { putOk := true, lockId := 8 }]
      0 60 none).1 = WWLResult.raised "boom" ∧
    (write_with_lock (fun i => (WriterOutcome.value i : WriterOutcome Nat))
      [{ putOk := false, lockId := 7 }] 0 60 none).1 =
      WWLResult.lockFailure := by
  constructor
  · exact ((C5_write_with_lock
      (fun _ => (WriterOutcome.raises "boom" : WriterOutcome Nat))
      [{ putOk := false, lockId := 7 }, { putOk := true, lockId := 8 }]
      0 60 none (by decide)).2 [{ putOk := false, lockId := 7 }]
      { putOk := true, lockId := 8 } [] rfl rfl (by decide)).1
  · exact ((C5_write_with_lock
      (fun i => (WriterOutcome.value i : WriterOutcome Nat))
      [{ putOk := false, lockId := 7 }] 0 60 none (by decide)).1
      (by decide)).1

/-- Claim C6: `release_lock` deletes the lock object exactly when the
stored record's `lock_id` equals the caller's; when the stored id differs
or the object is absent it returns failure and leaves the store
unchanged; hence a second release with the same `lock_id` after a
successful one returns failure and changes nothing. -/
theorem C6_release_owner_only (store : LockStore) (lockId : Nat) :
    ((release_lock store lockId).1 = true ↔
      ∃ rec, store = some rec ∧ rec.lock_id = lockId) ∧
    ((release_lock store lockId).1 = true →
      (release_lock store lockId).2 = none) ∧
    ((release_lock store lockId).1 = false →
      (release_lock store lockId).2 = store) ∧
    ((release_lock store lockId).1 = true →
      release_lock (release_lock store lockId).2 lockId =
        (false, (release_lock store lockId).2)) := by
  cases store with
  | none => simp [release_lock]
  | some rec =>
      by_cases h : rec.lock_id = lockId
      · simp [release_lock, h]
        exact ⟨rec, rfl, h⟩
      · simp [release_lock, h]
        intro x hx
        injection hx with h2
        rw [← h2]
        exact h

/-- Witness for C6: releasing lock id 5 deletes the stored record with
that id, and a second release of the same id then fails without change. -/
theorem C6_release_owner_only_witness :
    (release_lock (some { lock_id := 5, expires := 100 }) 5).2 = none ∧
    release_lock (release_lock (some { lock_id := 5, expires := 100 }) 5).2 5 =
      (false, (release_lock (some { lock_id := 5, expires := 100 }) 5).2) := by
  have h := C6_release_owner_only (some { lock_id := 5, expires := 100 }) 5
  have ht : (release_lock (some { lock_id := 5, expires := 100 }) 5).1 = true :=
    h.1.mpr ⟨{ lock_id := 5, expires := 100 }, rfl, rfl⟩
  exact ⟨h.2.1 ht, h.2.2.2 ht⟩

/-! Helper lemmas about the orchestrator's result map. -/

theorem map_fst_update (k : String) (v : AccountResult) :
    ∀ (m : List (String × AccountResult)),
      (m.map (fun kv => if kv.1 = k then (k, v) else kv)).map Prod.fst =
        m.map Prod.fst
  | [] => rfl
  | kv :: rest => by
      by_cases h : kv.1 = k
      · simp [h, map_fst_update k v rest]
      · simp [h, map_fst_update k v rest]

theorem keys_upsert (m : List (String × AccountResult)) (k : String)
    (v : AccountResult) :
    (upsert m k v).map Prod.fst = addKey (m.map Prod.fst) k := by
  unfold upsert addKey
  by_cases h : k ∈ m.map Prod.fst
  · have hany : m.any (fun kv => kv.1 = k) = true := by
      rw [List.any_eq_true]
      obtain ⟨kv, hkv, hfst⟩ := List.mem_map.mp h
      exact ⟨kv, hkv, by simp [hfst]⟩
    rw [if_pos hany, if_pos h, map_fst_update]
  · have hany : ¬(m.any (fun kv => kv.1 = k) = true) := by
      rw [List.any_eq_true]
      rintro ⟨kv, hkv, hfst⟩
      simp only [decide_eq_true_eq] at hfst
      exact h (List.mem_map.mpr ⟨kv, hkv, hfst⟩)
    rw [if_neg hany, if_neg h]
    simp

theorem runAccounts_keys (now : Nat) :
    ∀ (accs : List AccountSpec) (bks : Breakers)
      (m : List (String × AccountResult)) (ap : List PolicyProps),
      ((runAccounts now accs bks m ap).1).map Prod.fst =
        accs.foldl (fun ks acc => addKey ks acc.account_id) (m.map Prod.fst)
  | [], _, _, _ => rfl
  | acc :: rest, bks, m, ap => by
      simp only [runAccounts, List.foldl_cons]
      rw [runAccounts_keys now rest _ _ _, keys_upsert]

theorem addKey_nodup (ks : List String) (k : String) (h : ks.Nodup) :
    (addKey ks k).Nodup := by
  unfold addKey
  split
  · exact h
  · next hk =>
      refine List.Nodup.append h (List.nodup_singleton k) ?_
      intro a ha hb
      rw [List.mem_singleton] at hb
      subst hb
      exact hk ha

theorem addKey_mem (ks : List String) (k x : String) :
    x ∈ addKey ks k ↔ x ∈ ks ∨ x = k := by
  unfold addKey
  split
  · next hk =>
      constructor
      · exact Or.inl
      · rintro (h | h)
        · exact h
        · rw [h]
          exact hk
  · simp

theorem foldAddKey_nodup :
    ∀ (accs : List AccountSpec) (ks : List String), ks.Nodup →
      (accs.foldl (fun ks acc => addKey ks acc.account_id) ks).Nodup
  | [], _, h => h
  | acc :: rest, ks, h =>
      foldAddKey_nodup rest (addKey ks acc.account_id)
        (addKey_nodup ks acc.account_id h)

theorem foldAddKey_mem :
    ∀ (accs : List AccountSpec) (ks : List String) (x : String),
      x ∈ accs.foldl (fun ks acc => addKey ks acc.account_id) ks ↔
        x ∈ ks ∨ x ∈ accs.map (fun a => a.account_id)
  | [], ks, x => by simp
  | acc :: rest, ks, x => by
      simp only [List.foldl_cons, List.map_cons, List.mem_cons,
        foldAddKey_mem rest (addKey ks acc.account_id) x, addKey_mem]
      tauto

theorem foldAddKey_eq :
    ∀ (accs : List AccountSpec) (ks : List String),
      (accs.map (fun a => a.account_id)).Nodup →
      (∀ a ∈ accs, a.account_id ∉ ks) →
      accs.foldl (fun ks acc => addKey ks acc.account_id) ks =
        ks ++ accs.map (fun a => a.account_id)
  | [], ks, _, _ => by simp
  | acc :: rest, ks, hnd, hdisj => by
      have hhead : acc.account_id ∉ ks := hdisj acc (by simp)
      have hstep : addKey ks acc.account_id = ks ++ [acc.account_id] := by
        unfold addKey
        rw [if_neg hhead]
      simp only [List.foldl_cons, hstep]
      rw [foldAddKey_eq rest (ks ++ [acc.account_id])
        (by simp only [List.map_cons, List.nodup_cons] at hnd; exact hnd.2)
        ?_]
      · simp
      · intro a ha
        simp only [List.mem_append, List.mem_singleton]
        rintro (h | h)
        · exact hdisj a (by simp [ha]) h
        · simp only [List.map_cons, List.nodup_cons] at hnd
          exact hnd.1 (h ▸ List.mem_map.mpr ⟨a, ha, rfl⟩)

/-- Claim C7 counterexample: with three input tasks of which two share the
same `account_id`, the result map has only two entries — not one entry
per input task. -/
theorem C7_counterexample :
    [accountA, accountA, accountC].length = 3 ∧
    (list_policy_properties_multi_account [accountA, accountA, accountC]
      200).accounts.length = 2 := by
  decide

/-- Claim C7 (amended): the orchestrator's result map has nodup keys, its
key set is exactly the set of account ids occurring in the input
(regardless of the order in which account results complete and are
inserted), and when the input account ids are pairwise distinct the map
has exactly one entry per input task; in the concrete scenario (account
`222222222222` raising a Permanent error on role assumption, the other
two succeeding with no resources) the map has exactly three entries, the
failing account's status is `failed`, and `successful_accounts = 2`. -/
theorem C7_result_map (accs : List AccountSpec) (now : Nat) :
    ((((list_policy_properties_multi_account accs now).accounts).map
        Prod.fst).Nodup ∧
      (∀ k, k ∈ ((list_policy_properties_multi_account accs now).accounts).map
          Prod.fst ↔ k ∈ accs.map (fun a => a.account_id)) ∧
      ((accs.map (fun a => a.account_id)).Nodup →
        (list_policy_properties_multi_account accs now).accounts.length =
          accs.length)) ∧
    ((list_policy_properties_multi_account [accountA, accountB, accountC]
        200).accounts.length = 3 ∧
      ((list_policy_properties_multi_account [accountA, accountB, accountC]
        200).accounts.lookup "222222222222").map (fun r => r.status) =
        some AccountStatus.failed ∧
      (list_policy_properties_multi_account [accountA, accountB, accountC]
        200).summary.successful_accounts = 2) := by
  have hkeys : ((list_policy_properties_multi_account accs now).accounts).map
      Prod.fst =
      accs.foldl (fun ks acc => addKey ks acc.account_id) [] := by
    simp only [list_policy_properties_multi_account]
    exact runAccounts_keys now accs (initialBreakers now) [] []
  refine ⟨⟨?_, ?_, ?_⟩, by decide⟩
  · rw [hkeys]
    exact foldAddKey_nodup accs [] List.nodup_nil
  · intro k
    rw [hkeys, foldAddKey_mem]
    simp
  · intro hnd
    have h2 : (((list_policy_properties_multi_account accs
        now).accounts).map Prod.fst).length = accs.length := by
      rw [hkeys, foldAddKey_eq accs [] hnd (by simp)]
      simp
    rw [← h2, List.length_map]

/-- Witness for C7: the three distinct accounts of the concrete scenario
produce a map with exactly one entry per task, and the failing account's
id is among its keys. -/
theorem C7_result_map_witness :
    (list_policy_properties_multi_account [accountA, accountB, accountC]
      200).accounts.length = 3 ∧
    "222222222222" ∈ ((list_policy_properties_multi_account
      [accountA, accountB, accountC] 200).accounts).map Prod.fst := by
  have h := C7_result_map [accountA, accountB, accountC] 200
  exact ⟨h.1.2.2 (by decide), (h.1.2.1 "222222222222").mpr (by decide)⟩

/-- Claim C8 counterexample: with five items where item 3's detail fetch
raises a transient `ClientError`, the raise is caught inside the guarded
tag fetch and the item is included with empty tags: the returned sequence
has all five items (with `statistics.total = 5`), not four as the claim
requires for every raised error. -/
theorem C8_counterexample :
    (process_account (initialBreakers 100) 100 accFiveClient).1.status =
      AccountStatus.success ∧
    (process_account (initialBreakers 100) 100
      accFiveClient).1.policies.length = 5 ∧
    (process_account (initialBreakers 100) 100 accFiveClient).1.stats.total =
      5 := by
  decide

/-- Claim C8 (amended): an account's `statistics.total` always equals the
length of its returned items sequence; an item whose tag fetch raises a
non-`ClientError` while the tag breaker allows requests is excluded
(raised `ClientError`s are caught and the item kept with empty tags); and
in the concrete scenario — five items where item 3's fetch raises a
`ValueError` — the account still succeeds with exactly the four sibling
items and `statistics.total = 4`. -/
theorem C8_item_isolation :
    (∀ (bks : Breakers) (now : Nat) (acc : AccountSpec),
      ((process_account bks now acc).1).stats.total =
        ((process_account bks now acc).1).policies.length) ∧
    (∀ (tagCb : CircuitBreaker) (now : Nat) (aid : String) (p : PolicySpec)
      (name : String), p.tagsOutcome = TagOutcome.raiseOther name →
      (allow_request tagCb now).1 = true →
      (process_policy tagCb now aid p).1 =
        Except.error (PyError.otherError name)) ∧
    ((process_account (initialBreakers 100) 100 accFive).1.status =
        AccountStatus.success ∧
      (process_account (initialBreakers 100) 100 accFive).1.policies.length =
        4 ∧
      (process_account (initialBreakers 100) 100 accFive).1.stats.total = 4 ∧
      (process_account (initialBreakers 100) 100 accFive).1.policies.map
        (fun q => q.arn) = ["p1", "p2", "p4", "p5"]) := by
  refine ⟨?_, ?_, by decide⟩
  · intro bks now acc
    simp only [process_account]
    repeat' split
    all_goals rfl
  · intro tagCb now aid p name htag hallow
    simp only [process_policy, get_policy_tags_with_cb, htag, hallow,
      eq_self_iff_true, if_true]

/-- Witness for C8: the general statements instantiated on the concrete
five-item account and on the failing item itself. -/
theorem C8_item_isolation_witness :
    (process_account (initialBreakers 100) 100 accFive).1.stats.total =
      (process_account (initialBreakers 100) 100 accFive).1.policies.length ∧
    (process_policy (mkCircuitBreaker 5 15 60 0) 0 "555555555555"
      { arn := "p3", tagsOutcome := TagOutcome.raiseOther "ValueError" }).1 =
      Except.error (PyError.otherError "ValueError") := by
  exact ⟨C8_item_isolation.1 (initialBreakers 100) 100 accFive,
    C8_item_isolation.2.1 (mkCircuitBreaker 5 15 60 0) 0 "555555555555"
      { arn := "p3", tagsOutcome := TagOutcome.raiseOther "ValueError" }
      "ValueError" rfl (by decide)⟩

/-- Witness for C10: an `AccessDenied` recorded at time 10 on the open
breaker `cbOpenEx` keeps the count, and `allow_request` at time 40 (30
seconds later, within the postponed recovery window) is still denied. -/
theorem C10_nontrigger_frame_witness :
    (record_failure cbOpenEx
      (some (PyError.clientError (some "AccessDenied"))) 10).failure_count =
      cbOpenEx.failure_count ∧
    (allow_request (record_failure cbOpenEx
      (some (PyError.clientError (some "AccessDenied"))) 10) 40).1 = false := by
  have h := C10_nontrigger_frame cbOpenEx (some "AccessDenied") 10 (by decide)
  exact ⟨h.2.1, h.2.2.2.1 (by decide) 40 (by decide)⟩

end Cidb2
